import Mathlib

/-!
Shallow embedding of the vetcare repository (dependency-injection container,
ORM cascade declarations, database session module, and the pet-search
endpoint), with theorems checking the specification's claims against it.

Python object identity is modelled by giving every constructed repository or
service instance a fresh natural-number id drawn from an allocation counter
carried in the container state.  Python dicts keyed by strings are modelled
as association lists with insert-or-overwrite semantics (`dictInsert`), whose
key order matches Python insertion order.  Methods that raise are embedded as
functions into `Except`, paired with the post-state of the object.
-/

namespace VetCare

/-- Lookup in an association list, mirroring Python `d[k]` / `k in d`. -/
def dictGet {α : Type} (k : String) : List (String × α) → Option α
  | [] => none
  | (k0, v) :: rest => if k0 = k then some v else dictGet k rest

/-- Insert-or-overwrite in an association list, mirroring Python `d[k] = v`:
an existing key keeps its position, a new key is appended. -/
def dictInsert {α : Type} (k : String) (v : α) : List (String × α) → List (String × α)
  | [] => [(k, v)]
  | (k0, v0) :: rest => if k0 = k then (k, v) :: rest else (k0, v0) :: dictInsert k v rest

/-- The keys of an association list, mirroring Python `list(d.keys())`. -/
def dictKeys {α : Type} (l : List (String × α)) : List String :=
  l.map (fun p => p.1)

/-- A constructed service instance: its own allocation id plus, for each
named constructor argument, the allocation id of the repository instance
injected there (`none` models a failed dict lookup, which never occurs
during `initialize`). -/
structure ServiceInst where
  id : Nat
  deps : List (String × Option Nat)
deriving DecidableEq

/-- State of `DIContainer` (src/infra/container.py): the `_repositories` and
`_services` dicts map string keys to instance ids, `_initialized` is the
guard flag, and `nextId` is the allocation counter modelling `SQLUserRepository()`
etc. creating fresh objects. -/
structure DIContainer where
  _repositories : List (String × Nat)
  _services : List (String × ServiceInst)
  _initialized : Bool
  nextId : Nat
deriving DecidableEq

/-- `DIContainer.__init__`: empty dicts, not initialized. -/
def DIContainer.new : DIContainer :=
  { _repositories := [], _services := [], _initialized := false, nextId := 0 }

/-- One line of `_setup_repositories`: construct a fresh repository instance
and store it under `key`. -/
def DIContainer.addRepo (c : DIContainer) (key : String) : DIContainer :=
  { c with _repositories := dictInsert key c.nextId c._repositories, nextId := c.nextId + 1 }

/-- One statement of `_setup_services`: construct a fresh service instance
with the given injected dependencies and store it under `key`. -/
def DIContainer.addService (c : DIContainer) (key : String) (deps : List (String × Option Nat)) :
    DIContainer :=
  { c with _services := dictInsert key ⟨c.nextId, deps⟩ c._services, nextId := c.nextId + 1 }

/-- `DIContainer._setup_repositories`: creates the four repository instances. -/
def DIContainer.setupRepositories (c : DIContainer) : DIContainer :=
  (((c.addRepo "user").addRepo "client").addRepo "pet").addRepo "appointment"

/-- `DIContainer._setup_services`: constructs the four services, injecting the
already-constructed repositories read from `self._repositories`. -/
def DIContainer.setupServices (c : DIContainer) : DIContainer :=
  let c1 := c.addService "auth"
    [("user_repository", dictGet "user" c._repositories)]
  let c2 := c1.addService "client"
    [("client_repository", dictGet "client" c1._repositories)]
  let c3 := c2.addService "pet"
    [("pet_repository", dictGet "pet" c2._repositories),
     ("client_repository", dictGet "client" c2._repositories)]
  c3.addService "appointment"
    [("appointment_repository", dictGet "appointment" c3._repositories),
     ("pet_repository", dictGet "pet" c3._repositories),
     ("user_repository", dictGet "user" c3._repositories)]

/-- the method `initialize` of `DIContainer`: returns immediately when `_initialized`,
otherwise sets up repositories, then services, then the flag. -/
def DIContainer.initialize' (c : DIContainer) : DIContainer :=
  if c._initialized then c
  else
    let c1 := c.setupRepositories
    let c2 := c1.setupServices
    { c2 with _initialized := true }

/-- Errors raised by the container: `RuntimeError` when not initialized,
`KeyError` carrying the requested name and the available keys reported in
its message. -/
inductive ContainerError where
  | notInitialized (msg : String)
  | notFound (kind : String) (name : String) (available : List String)
deriving DecidableEq

/-- `DIContainer.get_repository`: RuntimeError before initialization,
KeyError listing the available keys for an unknown name, otherwise the
stored instance.  The method mutates nothing, so the paired post-state is
the receiver. -/
def DIContainer.get_repository (c : DIContainer) (name : String) :
    Except ContainerError Nat × DIContainer :=
  if c._initialized = false then
    (.error (.notInitialized "Container not initialized. Call initialize() first."), c)
  else
    match dictGet name c._repositories with
    | none => (.error (.notFound "Repository" name (dictKeys c._repositories)), c)
    | some repo => (.ok repo, c)

/-- `DIContainer.get_service`: same contract as `get_repository`, over the
services dict. -/
def DIContainer.get_service (c : DIContainer) (name : String) :
    Except ContainerError ServiceInst × DIContainer :=
  if c._initialized = false then
    (.error (.notInitialized "Container not initialized. Call initialize() first."), c)
  else
    match dictGet name c._services with
    | none => (.error (.notFound "Service" name (dictKeys c._services)), c)
    | some svc => (.ok svc, c)

/-- The dict returned by `DIContainer.health_check`: the `available_
repositories` / `available_services` keys are present (`some`) only when the
update under `if self._initialized` ran. -/
structure HealthSnapshot where
  initialized : Bool
  repositories_count : Nat
  services_count : Nat
  available_repositories : Option (List String)
  available_services : Option (List String)
deriving DecidableEq

/-- `DIContainer.health_check`: builds the base dict, adds the key lists only
when initialized, and mutates nothing. -/
def DIContainer.health_check (c : DIContainer) : HealthSnapshot × DIContainer :=
  let base : HealthSnapshot :=
    { initialized := c._initialized
      repositories_count := c._repositories.length
      services_count := c._services.length
      available_repositories := none
      available_services := none }
  if c._initialized then
    ({ base with
        available_repositories := some (dictKeys c._repositories)
        available_services := some (dictKeys c._services) }, c)
  else
    (base, c)

/-- `AppointmentStatusEnum` from src/infra/database/models.py. -/
inductive AppointmentStatusEnum where
  | scheduled
  | confirmed
  | in_progress
  | completed
  | cancelled
  | no_show
deriving DecidableEq

/-- Position of a status along the lifecycle ordering (the alternate terminal
states sit after `completed` so that every allowed move strictly increases
the rank). -/
def statusRank : AppointmentStatusEnum → Nat
  | .scheduled => 0
  | .confirmed => 1
  | .in_progress => 2
  | .completed => 3
  | .cancelled => 4
  | .no_show => 5

/-- Whether a status is terminal: `completed`, `cancelled`, `no_show`. -/
def isTerminal : AppointmentStatusEnum → Bool
  | .completed => true
  | .cancelled => true
  | .no_show => true
  | _ => false

/-- Modelled from the spec: the appointment status transition relation.  The
service enforcing transitions (services/appointment_service.py) is not under
src; the spec states the lifecycle scheduled → confirmed → in_progress →
completed, with cancelled and no_show as alternate terminal states reachable
from scheduled or confirmed. -/
def allowedTransition : AppointmentStatusEnum → AppointmentStatusEnum → Bool
  | .scheduled, .confirmed => true
  | .confirmed, .in_progress => true
  | .in_progress, .completed => true
  | .scheduled, .cancelled => true
  | .scheduled, .no_show => true
  | .confirmed, .cancelled => true
  | .confirmed, .no_show => true
  | _, _ => false

/-- A row of the `clients` table (the columns the cascade claims need). -/
structure ClientRow where
  id : Nat
deriving DecidableEq

/-- A row of the `pets` table: primary key and the non-null `client_id`
foreign key into `clients`. -/
structure PetRow where
  id : Nat
  client_id : Nat
deriving DecidableEq

/-- A row of the `appointments` table: primary key and the non-null `pet_id`
foreign key into `pets`. -/
structure AppointmentRow where
  id : Nat
  pet_id : Nat
deriving DecidableEq

/-- The relational store holding the three tables the cascade declarations
in src/infra/database/models.py relate. -/
structure VetDB where
  clients : List ClientRow
  pets : List PetRow
  appointments : List AppointmentRow
deriving DecidableEq

/-- Deleting a pet, per the `cascade="all, delete-orphan"` declaration on
`PetModel.appointments`: the pet row goes, and every appointment row whose
`pet_id` references it goes with it. -/
def delete_pet (db : VetDB) (pid : Nat) : VetDB :=
  { db with
      pets := db.pets.filter (fun p => p.id ≠ pid)
      appointments := db.appointments.filter (fun a => a.pet_id ≠ pid) }

/-- Deleting a client, per the `cascade="all, delete-orphan"` declaration on
`ClientModel.pets` chained with the one on `PetModel.appointments`: the
client row goes, every pet row owned by it goes, and every appointment row
of one of those pets goes. -/
def delete_client (db : VetDB) (cid : Nat) : VetDB :=
  let deletedPetIds := (db.pets.filter (fun p => p.client_id = cid)).map (fun p => p.id)
  { clients := db.clients.filter (fun c => c.id ≠ cid)
    pets := db.pets.filter (fun p => p.client_id ≠ cid)
    appointments := db.appointments.filter (fun a => a.pet_id ∉ deletedPetIds) }

/-- State of the module src/vetcare/infra/database/__init__.py: the global
`_session_factory` (unset until `initialize_database` runs) and a counter
giving each session created by the factory a fresh id. -/
structure DBState where
  _session_factory : Option Unit
  sessions_created : Nat
deriving DecidableEq

/-- The module's import-time state: `_session_factory = None`. -/
def DBState.new : DBState := { _session_factory := none, sessions_created := 0 }

/-- `initialize_database`: builds the engine and binds the session factory
(the engine configuration does not affect the claims modelled here). -/
def initialize_database (st : DBState) : DBState :=
  { st with _session_factory := some () }

/-- `get_db_session`: raises RuntimeError while `_session_factory is None`,
otherwise calls the factory, producing a fresh session. -/
def get_db_session (st : DBState) : Except String Nat × DBState :=
  match st._session_factory with
  | none =>
      (.error "Database not initialized. Call initialize_database() first.", st)
  | some _ =>
      (.ok st.sessions_created, { st with sessions_created := st.sessions_created + 1 })

/-- `PetSpecies` from the domain entity (mirrors `PetSpeciesEnum` in
src/infra/database/models.py). -/
inductive PetSpecies where
  | dog
  | cat
  | bird
  | rabbit
  | hamster
  | other
deriving DecidableEq

/-- The `.value` string of each species member. -/
def PetSpecies.value : PetSpecies → String
  | .dog => "dog"
  | .cat => "cat"
  | .bird => "bird"
  | .rabbit => "rabbit"
  | .hamster => "hamster"
  | .other => "other"

/-- A client as seen by the search endpoint: id plus the `full_name`
property the endpoint reads. -/
structure Client where
  id : Nat
  full_name : String
deriving DecidableEq

/-- A pet as seen by the search endpoint: the fields the JSON formatting
reads. -/
structure Pet where
  id : Nat
  name : String
  species : PetSpecies
  client_id : Nat
deriving DecidableEq

/-- One element of the JSON array returned by the search endpoint. -/
structure SearchResult where
  id : Nat
  name : String
  species : String
  owner : String
  display : String
deriving DecidableEq

/-- Python `str.strip()`: removes whitespace from both ends of a string
(written over the character list so that it reduces in the kernel). -/
def pyStrip (s : String) : String :=
  String.mk (((s.data.dropWhile Char.isWhitespace).reverse.dropWhile Char.isWhitespace).reverse)

/-- Modelled from the spec: `ClientService.get_client_by_id` (the client
service is not under src).  Per the repository contract, fetch-by-id returns
an absent result, never throws, when no matching row exists. -/
def get_client_by_id (clients : List Client) (cid : Nat) : Option Client :=
  clients.find? (fun cl => cl.id = cid)

/-- One iteration of the JSON-formatting loop in `search_pets`
(src/web/blueprints/pets.py): looks up the owner, falling back to the
placeholder when the owner is absent or the lookup fails. -/
def toSearchResult (clients : List Client) (pet : Pet) : SearchResult :=
  let owner_name :=
    match get_client_by_id clients pet.client_id with
    | some owner => owner.full_name
    | none => "Propietario desconocido"
  { id := pet.id
    name := pet.name
    species := pet.species.value.capitalize
    owner := owner_name
    display := pet.name ++ " (" ++ pet.species.value.capitalize ++ ") - " ++ owner_name }

/-- The `/search` route `search_pets` (src/web/blueprints/pets.py): trims the
query, returns an empty JSON list when it is shorter than 2 characters, and
otherwise formats the first 10 results of `pet_service.search_pets`.  The
service's search is abstracted as the function argument `pet_search`; the
second component counts how many times the route invoked it. -/
def search_pets (pet_search : String → List Pet) (clients : List Client) (q : String) :
    List SearchResult × Nat :=
  let query := pyStrip q
  if query.length < 2 then ([], 0)
  else
    let pets := pet_search query
    ((pets.take 10).map (toSearchResult clients), 1)

/-- A concrete owner used to exercise the search endpoint. -/
def clientJuan : Client := { id := 1, full_name := "Juan Perez" }

/-- A concrete pet used to exercise the search endpoint. -/
def petRex : Pet := { id := 1, name := "Rex", species := .dog, client_id := 1 }

/-- A concrete store used to exercise the cascade deletes: client 1 owns
pets 10 and 11, client 2 owns pet 12, and each pet has one appointment. -/
def dbExample : VetDB :=
  { clients := [⟨1⟩, ⟨2⟩]
    pets := [⟨10, 1⟩, ⟨11, 1⟩, ⟨12, 2⟩]
    appointments := [⟨100, 10⟩, ⟨101, 11⟩, ⟨102, 12⟩] }

/-! ### Helper lemmas shared by the claim theorems -/

theorem initialize_sets_flag (c : DIContainer) : (c.initialize')._initialized = true := by
  by_cases h : c._initialized <;> simp [DIContainer.initialize', h]

theorem get_repository_state (c : DIContainer) (name : String) :
    (c.get_repository name).2 = c := by
  unfold DIContainer.get_repository
  split
  · rfl
  · split <;> rfl

theorem get_service_state (c : DIContainer) (name : String) :
    (c.get_service name).2 = c := by
  unfold DIContainer.get_service
  split
  · rfl
  · split <;> rfl

/-! ### Claim theorems -/

/-- C1: calling `initialize()` on an already-initialized container is a
no-op on the whole state (repository map, service map and flag), `initialize`
is idempotent on every starting state, and after two calls the global
container holds exactly one instance per repository key and per service key,
in registration order. -/
theorem initialize_idempotent :
    (∀ c : DIContainer, c._initialized = true → c.initialize' = c) ∧
    (∀ c : DIContainer, c.initialize'.initialize' = c.initialize') ∧
    dictKeys (DIContainer.new.initialize'.initialize')._repositories =
      ["user", "client", "pet", "appointment"] ∧
    dictKeys (DIContainer.new.initialize'.initialize')._services =
      ["auth", "client", "pet", "appointment"] := by
  have hflag := initialize_sets_flag
  have noop : ∀ c : DIContainer, c._initialized = true → c.initialize' = c := by
    intro c h
    simp [DIContainer.initialize', h]
  refine ⟨noop, fun c => noop _ (hflag c), by decide, by decide⟩

/-- C1 witness: the concrete global container, initialized once, is left
unchanged by a second `initialize()`. -/
theorem initialize_idempotent_witness :
    DIContainer.new.initialize'.initialize' = DIContainer.new.initialize' :=
  initialize_idempotent.1 DIContainer.new.initialize' (by decide)

/-- C2: for every name, `get_repository` and `get_service` on a container
whose `_initialized` flag is still false return the RuntimeError and leave
the container state unchanged. -/
theorem get_before_initialize (c : DIContainer) (name : String)
    (h : c._initialized = false) :
    c.get_repository name =
      (.error (.notInitialized "Container not initialized. Call initialize() first."), c) ∧
    c.get_service name =
      (.error (.notInitialized "Container not initialized. Call initialize() first."), c) := by
  constructor <;> simp [DIContainer.get_repository, DIContainer.get_service, h]

/-- C2 witness: the fresh container rejects the valid key "user" with the
uninitialized error on both lookups. -/
theorem get_before_initialize_witness :
    DIContainer.new.get_repository "user" =
      (.error (.notInitialized "Container not initialized. Call initialize() first."),
        DIContainer.new) ∧
    DIContainer.new.get_service "user" =
      (.error (.notInitialized "Container not initialized. Call initialize() first."),
        DIContainer.new) :=
  get_before_initialize DIContainer.new "user" (by decide)

/-- C3: after `initialize()` on the fresh container, a repository name
outside {user, client, pet, appointment} yields a KeyError listing exactly
the registered repository keys, a service name outside {auth, client, pet,
appointment} yields a KeyError listing exactly the registered service keys,
and both lookups leave the container state unchanged. -/
theorem get_unknown_key (name : String) :
    (name ∉ (["user", "client", "pet", "appointment"] : List String) →
      DIContainer.new.initialize'.get_repository name =
        (.error (.notFound "Repository" name ["user", "client", "pet", "appointment"]),
          DIContainer.new.initialize')) ∧
    (name ∉ (["auth", "client", "pet", "appointment"] : List String) →
      DIContainer.new.initialize'.get_service name =
        (.error (.notFound "Service" name ["auth", "client", "pet", "appointment"]),
          DIContainer.new.initialize')) := by
  have hc : DIContainer.new.initialize' =
      ⟨[("user", 0), ("client", 1), ("pet", 2), ("appointment", 3)],
       [("auth", ⟨4, [("user_repository", some 0)]⟩),
        ("client", ⟨5, [("client_repository", some 1)]⟩),
        ("pet", ⟨6, [("pet_repository", some 2), ("client_repository", some 1)]⟩),
        ("appointment", ⟨7, [("appointment_repository", some 3), ("pet_repository", some 2),
          ("user_repository", some 0)]⟩)],
       true, 8⟩ := by decide
  rw [hc]
  constructor
  · intro h
    simp only [List.mem_cons, List.not_mem_nil, or_false, not_or] at h
    obtain ⟨h1, h2, h3, h4⟩ := h
    simp [DIContainer.get_repository, dictGet, dictKeys, Ne.symm h1, Ne.symm h2,
      Ne.symm h3, Ne.symm h4]
  · intro h
    simp only [List.mem_cons, List.not_mem_nil, or_false, not_or] at h
    obtain ⟨h1, h2, h3, h4⟩ := h
    simp [DIContainer.get_service, dictGet, dictKeys, Ne.symm h1, Ne.symm h2,
      Ne.symm h3, Ne.symm h4]

/-- C3 witness: the name "nonexistent" yields the two KeyErrors listing the
registered keys. -/
theorem get_unknown_key_witness :
    DIContainer.new.initialize'.get_repository "nonexistent" =
      (.error (.notFound "Repository" "nonexistent" ["user", "client", "pet", "appointment"]),
        DIContainer.new.initialize') ∧
    DIContainer.new.initialize'.get_service "nonexistent" =
      (.error (.notFound "Service" "nonexistent" ["auth", "client", "pet", "appointment"]),
        DIContainer.new.initialize') :=
  ⟨(get_unknown_key "nonexistent").1 (by decide), (get_unknown_key "nonexistent").2 (by decide)⟩

/-- C4: on the initialized container, repeating `get_repository` with the
same key returns the identical result (the first call leaves the state
unchanged, so the second call finds the same instance), and each service
was constructed holding exactly the instance ids stored in the repository
map: the pet service shares the pet and client repository instances, the
appointment service shares the appointment, pet and user repository
instances, and auth/client hold the user/client repository instances. -/
theorem container_shares_instances :
    (∀ name : String,
      (DIContainer.new.initialize'.get_repository name).1 =
        (((DIContainer.new.initialize'.get_repository name).2).get_repository name).1) ∧
    dictGet "pet" (DIContainer.new.initialize')._services =
      some ⟨6, [("pet_repository", dictGet "pet" (DIContainer.new.initialize')._repositories),
                ("client_repository", dictGet "client" (DIContainer.new.initialize')._repositories)]⟩ ∧
    dictGet "appointment" (DIContainer.new.initialize')._services =
      some ⟨7, [("appointment_repository",
                  dictGet "appointment" (DIContainer.new.initialize')._repositories),
                ("pet_repository", dictGet "pet" (DIContainer.new.initialize')._repositories),
                ("user_repository", dictGet "user" (DIContainer.new.initialize')._repositories)]⟩ ∧
    dictGet "auth" (DIContainer.new.initialize')._services =
      some ⟨4, [("user_repository", dictGet "user" (DIContainer.new.initialize')._repositories)]⟩ ∧
    dictGet "client" (DIContainer.new.initialize')._services =
      some ⟨5, [("client_repository", dictGet "client" (DIContainer.new.initialize')._repositories)]⟩ := by
  refine ⟨fun name => ?_, by decide, by decide, by decide, by decide⟩
  rw [get_repository_state]

/-- C5 counterexample: on the fresh (uninitialized) container the snapshot
returned by `health_check()` does not contain the registered names at all —
`available_repositories` and `available_services` are absent — so the claim
that the snapshot always carries the names fails. -/
theorem health_check_missing_names :
    (DIContainer.new.health_check).1.available_repositories = none ∧
    (DIContainer.new.health_check).1.available_services = none ∧
    (DIContainer.new.health_check).1.initialized = false := by decide

/-- C5 (amended): `health_check()` always reports the initialization flag
and the two counts, reports the registered names exactly when the container
is initialized, and never mutates the container state. -/
theorem health_check_snapshot (c : DIContainer) :
    (c.health_check).2 = c ∧
    (c.health_check).1.initialized = c._initialized ∧
    (c.health_check).1.repositories_count = c._repositories.length ∧
    (c.health_check).1.services_count = c._services.length ∧
    (c._initialized = true →
      (c.health_check).1.available_repositories = some (dictKeys c._repositories) ∧
      (c.health_check).1.available_services = some (dictKeys c._services)) ∧
    (c._initialized = false →
      (c.health_check).1.available_repositories = none ∧
      (c.health_check).1.available_services = none) := by
  by_cases h : c._initialized <;>
    simp [DIContainer.health_check, h]

/-- C5 witness: on the initialized global container the snapshot carries the
flag, the counts and the two key lists. -/
theorem health_check_snapshot_witness :
    (DIContainer.new.initialize'.health_check).1.available_repositories =
      some ["user", "client", "pet", "appointment"] ∧
    (DIContainer.new.initialize'.health_check).1.available_services =
      some ["auth", "client", "pet", "appointment"] := by
  have h := (health_check_snapshot DIContainer.new.initialize').2.2.2.2.1 (by decide)
  exact ⟨h.1.trans (by decide), h.2.trans (by decide)⟩

/-- C6: for every query, every pet store and every client store, the JSON
search endpoint returns at most 10 matches; every match is the formatting of
one of the (at most 10 first) ranked service results and carries the
denormalized full name of the pet's client, falling back to the placeholder
when that owner cannot be loaded; and when the trimmed query is long enough
the result is exactly the first 10 ranked matches in order. -/
theorem search_pets_spec (pet_search : String → List Pet) (clients : List Client) (q : String) :
    (search_pets pet_search clients q).1.length ≤ 10 ∧
    (∀ r ∈ (search_pets pet_search clients q).1,
      ∃ pet ∈ (pet_search (pyStrip q)).take 10,
        r = toSearchResult clients pet ∧
        ((∃ cl, get_client_by_id clients pet.client_id = some cl ∧ r.owner = cl.full_name) ∨
          (get_client_by_id clients pet.client_id = none ∧
            r.owner = "Propietario desconocido"))) ∧
    (2 ≤ (pyStrip q).length →
      (search_pets pet_search clients q).1 =
        ((pet_search (pyStrip q)).take 10).map (toSearchResult clients)) := by
  by_cases h : (pyStrip q).length < 2
  · refine ⟨?_, ?_, ?_⟩ <;> simp [search_pets, h]
  · refine ⟨?_, ?_, fun _ => by simp [search_pets, h]⟩
    · simp only [search_pets, h, if_false]
      simp only [List.length_map, List.length_take]
      exact min_le_left _ _
    · intro r hr
      simp only [search_pets, h, if_false, List.mem_map] at hr
      obtain ⟨pet, hpet, rfl⟩ := hr
      refine ⟨pet, hpet, rfl, ?_⟩
      cases hfind : get_client_by_id clients pet.client_id with
      | none => exact Or.inr ⟨rfl, by simp [toSearchResult, hfind]⟩
      | some cl => exact Or.inl ⟨cl, rfl, by simp [toSearchResult, hfind]⟩

/-- C6 witness: a concrete search for "Rex" returns at most 10 matches and
exactly the formatted ranked results. -/
theorem search_pets_spec_witness :
    (search_pets (fun _ => [petRex]) [clientJuan] "Rex").1.length ≤ 10 ∧
    (search_pets (fun _ => [petRex]) [clientJuan] "Rex").1 =
      (((fun _ : String => [petRex]) (pyStrip "Rex")).take 10).map (toSearchResult [clientJuan]) :=
  ⟨(search_pets_spec (fun _ => [petRex]) [clientJuan] "Rex").1,
   (search_pets_spec (fun _ => [petRex]) [clientJuan] "Rex").2.2 (by decide)⟩

/-- C10: for every search function, client store and query whose stripped
form is shorter than 2 characters, the endpoint returns the empty JSON list
and performs zero invocations of the pet service's search. -/
theorem search_short_query (pet_search : String → List Pet) (clients : List Client) (q : String)
    (h : (pyStrip q).length < 2) :
    search_pets pet_search clients q = ([], 0) := by
  simp [search_pets, h]

/-- C10 witness: the one-character query "a" yields the empty list with the
service never invoked, even though the service would return a match. -/
theorem search_short_query_witness :
    search_pets (fun _ => [petRex]) [clientJuan] "a" = ([], 0) :=
  search_short_query (fun _ => [petRex]) [clientJuan] "a" (by decide)

/-- C7: deleting a client removes the client row, every pet row owned by it
and every appointment row of one of those pets, while every other client,
every pet of another client and every appointment of such a pet survive;
and deleting a pet removes exactly the appointment rows referencing it. -/
theorem delete_client_cascades (db : VetDB) (cid : Nat) :
    (∀ c ∈ (delete_client db cid).clients, c.id ≠ cid) ∧
    (∀ p ∈ (delete_client db cid).pets, p.client_id ≠ cid) ∧
    (∀ a ∈ (delete_client db cid).appointments,
      ∀ p ∈ db.pets, p.id = a.pet_id → p.client_id ≠ cid) ∧
    (∀ c ∈ db.clients, c.id ≠ cid → c ∈ (delete_client db cid).clients) ∧
    (∀ p ∈ db.pets, p.client_id ≠ cid → p ∈ (delete_client db cid).pets) ∧
    (∀ a ∈ db.appointments, (∀ p ∈ db.pets, p.id = a.pet_id → p.client_id ≠ cid) →
      a ∈ (delete_client db cid).appointments) ∧
    (∀ pid, ∀ a ∈ (delete_pet db pid).appointments, a.pet_id ≠ pid) ∧
    (∀ pid, ∀ a ∈ db.appointments, a.pet_id ≠ pid → a ∈ (delete_pet db pid).appointments) := by
  refine ⟨?_, ?_, ?_, ?_, ?_, ?_, ?_, ?_⟩
  · intro c hc
    simp only [delete_client, List.mem_filter, decide_eq_true_eq] at hc
    exact hc.2
  · intro p hp
    simp only [delete_client, List.mem_filter, decide_eq_true_eq] at hp
    exact hp.2
  · intro a ha p hp hid hcid
    simp only [delete_client, List.mem_filter, decide_eq_true_eq] at ha
    apply ha.2
    simp only [List.mem_map, List.mem_filter, decide_eq_true_eq]
    exact ⟨p, ⟨hp, hcid⟩, hid⟩
  · intro c hc hne
    simp only [delete_client, List.mem_filter, decide_eq_true_eq]
    exact ⟨hc, hne⟩
  · intro p hp hne
    simp only [delete_client, List.mem_filter, decide_eq_true_eq]
    exact ⟨hp, hne⟩
  · intro a ha hall
    simp only [delete_client, List.mem_filter, decide_eq_true_eq]
    refine ⟨ha, fun hmem => ?_⟩
    simp only [List.mem_map, List.mem_filter, decide_eq_true_eq] at hmem
    obtain ⟨p, ⟨hp, hcid⟩, hpid⟩ := hmem
    exact hall p hp hpid hcid
  · intro pid a ha
    simp only [delete_pet, List.mem_filter, decide_eq_true_eq] at ha
    exact ha.2
  · intro pid a ha hne
    simp only [delete_pet, List.mem_filter, decide_eq_true_eq]
    exact ⟨ha, hne⟩

/-- C7 witness: deleting client 1 from the concrete store keeps client 2,
its pet 12 and that pet's appointment 102. -/
theorem delete_client_cascades_witness :
    (⟨2⟩ : ClientRow) ∈ (delete_client dbExample 1).clients ∧
    (⟨12, 2⟩ : PetRow) ∈ (delete_client dbExample 1).pets ∧
    (⟨102, 12⟩ : AppointmentRow) ∈ (delete_client dbExample 1).appointments :=
  ⟨(delete_client_cascades dbExample 1).2.2.2.1 ⟨2⟩ (by decide) (by decide),
   (delete_client_cascades dbExample 1).2.2.2.2.1 ⟨12, 2⟩ (by decide) (by decide),
   (delete_client_cascades dbExample 1).2.2.2.2.2.1 ⟨102, 12⟩ (by decide) (by decide)⟩

/-- C8: every transition allowed by the status lifecycle strictly increases
the lifecycle rank (so the status never moves backwards), no transition
leaves a terminal status (completed, cancelled, no_show), and the alternate
terminal statuses cancelled and no_show are entered only from scheduled or
confirmed. -/
theorem status_lifecycle (s t : AppointmentStatusEnum) :
    (allowedTransition s t = true → statusRank s < statusRank t) ∧
    (isTerminal s = true → allowedTransition s t = false) ∧
    (allowedTransition s t = true → isTerminal t = true → t ≠ .completed →
      s = .scheduled ∨ s = .confirmed) := by
  cases s <;> cases t <;> exact ⟨by decide, by decide, by decide⟩

/-- C8 witness: scheduled → confirmed moves forward, and completed admits no
transition back to scheduled. -/
theorem status_lifecycle_witness :
    statusRank .scheduled < statusRank .confirmed ∧
    allowedTransition .completed .scheduled = false :=
  ⟨(status_lifecycle .scheduled .confirmed).1 (by decide),
   (status_lifecycle .completed .scheduled).2.1 (by decide)⟩

/-- C9: while the session factory is unset, `get_db_session()` raises the
RuntimeError and leaves the module state unchanged; once it is set (which
is what `initialize_database()` does), `get_db_session()` returns a freshly
created session — it never returns an absent value and never calls the
unset factory. -/
theorem get_db_session_spec (st : DBState) :
    (st._session_factory = none →
      get_db_session st =
        (.error "Database not initialized. Call initialize_database() first.", st)) ∧
    (∀ f, st._session_factory = some f →
      get_db_session st =
        (.ok st.sessions_created, { st with sessions_created := st.sessions_created + 1 })) ∧
    (get_db_session (initialize_database st)).1 = .ok st.sessions_created := by
  refine ⟨fun h => ?_, fun f h => ?_, ?_⟩
  · simp [get_db_session, h]
  · simp [get_db_session, h]
  · simp [get_db_session, initialize_database]

/-- C9 witness: on the module's import-time state the call raises, and after
`initialize_database()` it returns the first session. -/
theorem get_db_session_spec_witness :
    get_db_session DBState.new =
      (.error "Database not initialized. Call initialize_database() first.", DBState.new) ∧
    (get_db_session (initialize_database DBState.new)).1 = .ok 0 :=
  ⟨(get_db_session_spec DBState.new).1 (by decide),
   (get_db_session_spec DBState.new).2.2⟩

end VetCare
